import Mathlib

/-!
Shallow embedding of the ACP sandbox checkout server (`server.js`):
checkout-session lifecycle (create / update / retrieve / complete / cancel),
pricing calculator, fulfillment option generation, and the payment
delegation endpoint.  Nondeterministic inputs of the JS code (uuid-based
identifiers, `Math.random()` prices, `Date.now()` clocks) are passed in
explicitly as generator records; JS `Map`s become association lists;
absent/undefined JSON fields become `Option`.
-/

namespace ACP

/-- Caller-supplied item descriptor, e.g. `{id:"item_123", quantity:1}`. -/
structure Item where
  id : String
  quantity : Nat
deriving DecidableEq

/-- Structured postal address (contents are never inspected by the server). -/
structure Address where
  name : String
  line_one : String
  city : String
  state : String
  country : String
  postal_code : String
deriving DecidableEq

/-- Buyer descriptor attached at completion (contents never inspected). -/
structure Buyer where
  first_name : String
  last_name : String
  email : String
deriving DecidableEq

/-- Line item as built by `createLineItems` plus the pricing `forEach`. -/
structure LineItem where
  id : String
  item : Item
  base_amount : Nat
  discount : Nat
  subtotal : Nat
  tax : Nat
  total : Nat
deriving DecidableEq

/-- One entry of the fixed two-element fulfillment option menu. -/
structure FulfillmentOption where
  type : String
  id : String
  title : String
  subtitle : String
  carrier : String
  earliest_delivery_time : Nat
  latest_delivery_time : Nat
  subtotal : Nat
  tax : Nat
  total : Nat
deriving DecidableEq

/-- One entry of the totals breakdown returned by `calculateTotals`. -/
structure TotalEntry where
  type : String
  display_text : String
  amount : Nat
deriving DecidableEq

/-- Session message (only the cancellation notice is ever written). -/
structure Message where
  type : String
  content_type : String
  content : String
deriving DecidableEq

/-- Order record minted by the complete endpoint. -/
structure Order where
  id : String
  checkout_session_id : String
  permalink_url : String
  status : String
  created_at : Nat
deriving DecidableEq

structure PaymentProvider where
  provider : String
  supported_payment_methods : List String
deriving DecidableEq

structure Link where
  type : String
  url : String
deriving DecidableEq

/-- Session status strings used by the server. -/
inductive SessionStatus where
  | ready_for_payment
  | completed
  | canceled
deriving DecidableEq

def SessionStatus.str : SessionStatus → String
  | .ready_for_payment => "ready_for_payment"
  | .completed => "completed"
  | .canceled => "canceled"

/-- The checkout session record stored in the `checkoutSessions` map.
`buyer` and `order` are absent (`none`) until completion. -/
structure Session where
  id : String
  payment_provider : PaymentProvider
  status : SessionStatus
  currency : String
  line_items : List LineItem
  fulfillment_address : Option Address
  fulfillment_option_id : String
  totals : List TotalEntry
  fulfillment_options : List FulfillmentOption
  messages : List Message
  links : List Link
  buyer : Option Buyer
  order : Option Order
  created_at : Nat
  updated_at : Nat
deriving DecidableEq

/-- Payment method bundle sent to the delegate endpoint. -/
structure PaymentMethod where
  type : String
  number : String
  exp_month : String
  exp_year : String
  cvc : String
deriving DecidableEq

structure Allowance where
  reason : String
  max_amount : Nat
  currency : String
  checkout_session_id : String
  merchant_id : String
  expires_at : String
deriving DecidableEq

structure RiskSignal where
  type : String
  score : Nat
  action : String
deriving DecidableEq

abbrev Metadata := List (String × String)

/-- Token record stored server-side by the delegate endpoint. -/
structure PaymentToken where
  id : String
  created : Nat
  payment_method : PaymentMethod
  allowance : Allowance
  billing_address : Option Address
  risk_signals : List RiskSignal
  metadata : Metadata
deriving DecidableEq

/-- What the delegate endpoint sends back: only id, timestamp, metadata. -/
structure DelegateResponse where
  id : String
  created : Nat
  metadata : Metadata
deriving DecidableEq

/-- The three in-memory `Map`s of the server. -/
structure ServerState where
  checkoutSessions : List (String × Session)
  orders : List (String × Order)
  paymentTokens : List (String × PaymentToken)
deriving DecidableEq

def initialState : ServerState :=
  { checkoutSessions := [], orders := [], paymentTokens := [] }

/-- `Map.get`. -/
def lookupKey {α : Type} : List (String × α) → String → Option α
  | [], _ => none
  | (k, v) :: rest, key => if k = key then some v else lookupKey rest key

/-- `Map.set`: overwrite in place, append if the key is new. -/
def setKey {α : Type} : List (String × α) → String → α → List (String × α)
  | [], key, v => [(key, v)]
  | (k, w) :: rest, key, v =>
    if k = key then (key, v) :: rest else (k, w) :: setKey rest key v

/-- Number of stored orders whose `checkout_session_id` is `sid`. -/
def countOrders : List (String × Order) → String → Nat
  | [], _ => 0
  | (_, o) :: rest, sid =>
    (if o.checkout_session_id = sid then 1 else 0) + countOrders rest sid

/-- `options.find(opt => opt.id === fid)`. -/
def findOption : List FulfillmentOption → String → Option FulfillmentOption
  | [], _ => none
  | opt :: rest, fid => if opt.id = fid then some opt else findOption rest fid

/-- Uniform error shape `{type, code, message, param}` together with the
HTTP status code the endpoint answers with. -/
structure ApiError where
  httpStatus : Nat
  type : String
  code : String
  message : String
  param : Option String
deriving DecidableEq

def itemsRequiredError : ApiError :=
  { httpStatus := 400, type := "invalid_request", code := "invalid",
    message := "Items array is required and must not be empty",
    param := some "$.items" }

def notFoundError : ApiError :=
  { httpStatus := 404, type := "invalid_request", code := "not_found",
    message := "Checkout session not found", param := some "$.id" }

def updateInvalidStatusError (s : SessionStatus) : ApiError :=
  { httpStatus := 400, type := "invalid_request", code := "invalid_status",
    message := "Cannot update session with status: " ++ s.str,
    param := some "$.status" }

def invalidOptionError : ApiError :=
  { httpStatus := 400, type := "invalid_request", code := "invalid",
    message := "Invalid fulfillment option ID",
    param := some "$.fulfillment_option_id" }

def completeInvalidStatusError (s : SessionStatus) : ApiError :=
  { httpStatus := 400, type := "invalid_request", code := "invalid_status",
    message := "Cannot complete session with status: " ++ s.str,
    param := some "$.status" }

def paymentDataError : ApiError :=
  { httpStatus := 400, type := "invalid_request", code := "invalid",
    message := "Payment data with token is required",
    param := some "$.payment_data" }

def cancelInvalidStatusError (s : SessionStatus) : ApiError :=
  { httpStatus := 405, type := "invalid_request", code := "invalid_status",
    message := "Cannot cancel session with status: " ++ s.str,
    param := some "$.status" }

def invalidCardError : ApiError :=
  { httpStatus := 400, type := "invalid_request", code := "invalid_card",
    message := "Payment method type must be card",
    param := some "$.payment_method.type" }

def invalidAllowanceError : ApiError :=
  { httpStatus := 400, type := "invalid_request", code := "invalid_allowance",
    message := "Allowance reason must be one_time",
    param := some "$.allowance.reason" }

def riskSignalsError : ApiError :=
  { httpStatus := 400, type := "invalid_request", code := "invalid",
    message := "At least one risk signal is required",
    param := some "$.risk_signals" }

def dayMs : Nat := 24 * 60 * 60 * 1000

/-- `createLineItems`: one raw line item per caller item; `liIds`/`liAmts`
supply the uuid-derived id and the `Math.random()` price of the i-th item. -/
def createLineItems (items : List Item) (liIds : Nat → String)
    (liAmts : Nat → Nat) : List LineItem :=
  items.enum.map (fun p =>
    { id := liIds p.1, item := p.2, base_amount := liAmts p.1,
      discount := 0, subtotal := 0, tax := 0, total := 0 })

/-- The `forEach` both endpoints run over fresh line items:
`subtotal = base_amount`, `tax = floor(subtotal * 0.1)`, `total = subtotal + tax`. -/
def priceLineItem (li : LineItem) : LineItem :=
  { li with subtotal := li.base_amount,
            tax := li.base_amount / 10,
            total := li.base_amount + li.base_amount / 10 }

def buildLineItems (items : List Item) (liIds : Nat → String)
    (liAmts : Nat → Nat) : List LineItem :=
  (createLineItems items liIds liAmts).map priceLineItem

/-- First element of `createFulfillmentOptions`. -/
def standardOption (now : Nat) (oid : String) : FulfillmentOption :=
  { type := "shipping", id := oid, title := "Standard",
    subtitle := "Arrives in 4-5 days", carrier := "USPS",
    earliest_delivery_time := now + 4 * dayMs,
    latest_delivery_time := now + 5 * dayMs,
    subtotal := 100, tax := 0, total := 100 }

/-- Second element of `createFulfillmentOptions`. -/
def expressOption (now : Nat) (oid : String) : FulfillmentOption :=
  { type := "shipping", id := oid, title := "Express",
    subtitle := "Arrives in 1-2 days", carrier := "USPS",
    earliest_delivery_time := now + 1 * dayMs,
    latest_delivery_time := now + 2 * dayMs,
    subtotal := 500, tax := 0, total := 500 }

/-- `createFulfillmentOptions(address)` (the address argument is unused). -/
def createFulfillmentOptions (_address : Option Address) (now : Nat)
    (oid1 oid2 : String) : List FulfillmentOption :=
  [standardOption now oid1, expressOption now oid2]

/-- `calculateTotals(lineItems, fulfillmentOption)`. -/
def calculateTotals (lineItems : List LineItem)
    (fulfillmentOption : Option FulfillmentOption) : List TotalEntry :=
  let itemsBaseAmount := lineItems.foldl (fun sum item => sum + item.base_amount) 0
  let subtotal := itemsBaseAmount
  let tax := subtotal / 10
  let fulfillment := match fulfillmentOption with
    | some opt => opt.total
    | none => 0
  let total := subtotal + tax + fulfillment
  [ { type := "items_base_amount", display_text := "Item(s) total",
      amount := itemsBaseAmount },
    { type := "subtotal", display_text := "Subtotal", amount := subtotal },
    { type := "tax", display_text := "Tax", amount := tax },
    { type := "fulfillment", display_text := "Fulfillment", amount := fulfillment },
    { type := "total", display_text := "Total", amount := total } ]

/-- Parsed body of `POST /checkout_sessions`; `none` stands for a missing,
null or non-array field. -/
structure CreateReq where
  items : Option (List Item)
  buyer : Option Buyer
  fulfillment_address : Option Address

/-- Nondeterministic inputs of one create call: the uuid-derived session id,
line item ids, random prices, the two option ids and the clock. -/
structure CreateGen where
  sessionId : String
  liIds : Nat → String
  liAmts : Nat → Nat
  optId1 : String
  optId2 : String
  now : Nat

/-- The session record built by the create endpoint for a non-empty
`items` array. -/
def newSession (items : List Item) (req : CreateReq) (g : CreateGen) : Session :=
  { id := g.sessionId,
    payment_provider :=
      { provider := "stripe", supported_payment_methods := ["card"] },
    status := SessionStatus.ready_for_payment,
    currency := "usd",
    line_items := buildLineItems items g.liIds g.liAmts,
    fulfillment_address := req.fulfillment_address,
    fulfillment_option_id := (standardOption g.now g.optId1).id,
    totals := calculateTotals (buildLineItems items g.liIds g.liAmts)
      (some (standardOption g.now g.optId1)),
    fulfillment_options :=
      createFulfillmentOptions req.fulfillment_address g.now g.optId1 g.optId2,
    messages := [],
    links := [{ type := "terms_of_use",
                url := "https://www.testshop.com/legal/terms-of-use" }],
    buyer := none,
    order := none,
    created_at := g.now,
    updated_at := g.now }

/-- `POST /checkout_sessions`. -/
def createOp (st : ServerState) (req : CreateReq) (g : CreateGen) :
    Except ApiError Session × ServerState :=
  match req.items with
  | none => (Except.error itemsRequiredError, st)
  | some items =>
    if items.isEmpty then (Except.error itemsRequiredError, st)
    else
      (Except.ok (newSession items req g),
       { st with checkoutSessions :=
           setKey st.checkoutSessions g.sessionId (newSession items req g) })

/-- Parsed body of `POST /checkout_sessions/:id`. -/
structure UpdateReq where
  items : Option (List Item)
  fulfillment_address : Option Address
  fulfillment_option_id : Option String

structure UpdateGen where
  liIds : Nat → String
  liAmts : Nat → Nat
  now : Nat

/-- `if (items) { ...; session.line_items = lineItems }` — note a JS empty
array is truthy, so `some []` does replace the line items. -/
def applyItems (s : Session) (req : UpdateReq) (g : UpdateGen) : Session :=
  match req.items with
  | some items => { s with line_items := buildLineItems items g.liIds g.liAmts }
  | none => s

/-- `if (fulfillment_address) { session.fulfillment_address = ... }`. -/
def applyAddress (s : Session) (req : UpdateReq) : Session :=
  match req.fulfillment_address with
  | some addr => { s with fulfillment_address := addr }
  | none => s

/-- `if (fulfillment_option_id)`: a JS empty string is falsy, so it is
treated like an absent field. -/
def truthyOptionId (req : UpdateReq) : Option String :=
  match req.fulfillment_option_id with
  | some fid => if fid = "" then none else some fid
  | none => none

/-- The in-place mutations applied before the option-id validation. -/
def updApplied (s : Session) (req : UpdateReq) (g : UpdateGen) : Session :=
  applyAddress (applyItems s req g) req

/-- `// Recalculate totals` plus the `updated_at` refresh. -/
def recompute (s : Session) (now : Nat) : Session :=
  { s with
    totals := calculateTotals s.line_items
      (findOption s.fulfillment_options s.fulfillment_option_id),
    updated_at := now }

/-- `POST /checkout_sessions/:id`.  Faithful to the JS control flow: the
session object is mutated in place field by field, so when the
`fulfillment_option_id` validation fails the already-applied `items` /
`fulfillment_address` replacements remain visible in the store. -/
def updateOp (st : ServerState) (sessionId : String) (req : UpdateReq)
    (g : UpdateGen) : Except ApiError Session × ServerState :=
  match lookupKey st.checkoutSessions sessionId with
  | none => (Except.error notFoundError, st)
  | some session =>
    if session.status = SessionStatus.completed ∨
       session.status = SessionStatus.canceled then
      (Except.error (updateInvalidStatusError session.status), st)
    else
      match truthyOptionId req with
      | some fid =>
        match findOption (updApplied session req g).fulfillment_options fid with
        | none =>
          (Except.error invalidOptionError,
           { st with checkoutSessions :=
               setKey st.checkoutSessions sessionId (updApplied session req g) })
        | some _ =>
          (Except.ok (recompute { updApplied session req g with fulfillment_option_id := fid } g.now),
           { st with checkoutSessions := setKey st.checkoutSessions sessionId (recompute { updApplied session req g with fulfillment_option_id := fid } g.now) })
      | none =>
        (Except.ok (recompute (updApplied session req g) g.now),
         { st with checkoutSessions :=
             setKey st.checkoutSessions sessionId (recompute (updApplied session req g) g.now) })

/-- `GET /checkout_sessions/:id` — pure read. -/
def retrieveOp (st : ServerState) (sessionId : String) :
    Except ApiError Session :=
  match lookupKey st.checkoutSessions sessionId with
  | none => Except.error notFoundError
  | some session => Except.ok session

structure PaymentData where
  token : Option String
deriving DecidableEq

/-- Parsed body of `POST /checkout_sessions/:id/complete`. -/
structure CompleteReq where
  buyer : Option Buyer
  payment_data : Option PaymentData
deriving DecidableEq

structure CompleteGen where
  orderId : String
  now : Nat
deriving DecidableEq

/-- `!payment_data || !payment_data.token` — an empty token string is falsy. -/
def truthyToken (pd : Option PaymentData) : Option String :=
  match pd with
  | none => none
  | some d =>
    match d.token with
    | none => none
    | some t => if t = "" then none else some t

/-- The order record minted inside the complete endpoint. -/
def mkOrder (sessionId : String) (g : CompleteGen) : Order :=
  { id := g.orderId,
    checkout_session_id := sessionId,
    permalink_url := "https://www.testshop.com/orders/" ++ g.orderId,
    status := "created",
    created_at := g.now }

/-- How complete rewrites the session on success. -/
def completedSession (s : Session) (sessionId : String) (req : CompleteReq)
    (g : CompleteGen) : Session :=
  { s with
    status := SessionStatus.completed,
    buyer := req.buyer,
    order := some (mkOrder sessionId g),
    updated_at := g.now }

/-- `POST /checkout_sessions/:id/complete`. -/
def completeOp (st : ServerState) (sessionId : String) (req : CompleteReq)
    (g : CompleteGen) : Except ApiError Session × ServerState :=
  match lookupKey st.checkoutSessions sessionId with
  | none => (Except.error notFoundError, st)
  | some session =>
    if session.status ≠ SessionStatus.ready_for_payment then
      (Except.error (completeInvalidStatusError session.status), st)
    else
      match truthyToken req.payment_data with
      | none => (Except.error paymentDataError, st)
      | some _ =>
        (Except.ok (completedSession session sessionId req g),
         { st with
             orders := setKey st.orders g.orderId (mkOrder sessionId g),
             checkoutSessions :=
               setKey st.checkoutSessions sessionId (completedSession session sessionId req g) })

def cancelNotice : Message :=
  { type := "info", content_type := "plain",
    content := "Checkout session has been canceled." }

/-- How cancel rewrites the session on success. -/
def canceledSession (s : Session) (now : Nat) : Session :=
  { s with
    status := SessionStatus.canceled,
    messages := [cancelNotice],
    updated_at := now }

/-- `POST /checkout_sessions/:id/cancel`. -/
def cancelOp (st : ServerState) (sessionId : String) (now : Nat) :
    Except ApiError Session × ServerState :=
  match lookupKey st.checkoutSessions sessionId with
  | none => (Except.error notFoundError, st)
  | some session =>
    if session.status = SessionStatus.completed ∨
       session.status = SessionStatus.canceled then
      (Except.error (cancelInvalidStatusError session.status), st)
    else
      (Except.ok (canceledSession session now),
       { st with checkoutSessions :=
           setKey st.checkoutSessions sessionId (canceledSession session now) })

/-- Parsed body of `POST /agentic_commerce/delegate_payment`. -/
structure DelegateReq where
  payment_method : Option PaymentMethod
  allowance : Option Allowance
  billing_address : Option Address
  risk_signals : Option (List RiskSignal)
  metadata : Option Metadata
deriving DecidableEq

structure DelegateGen where
  tokenId : String
  now : Nat
deriving DecidableEq

/-- The full token record the delegate endpoint stores server-side. -/
def mkToken (pm : PaymentMethod) (al : Allowance) (req : DelegateReq)
    (rs : List RiskSignal) (g : DelegateGen) : PaymentToken :=
  { id := g.tokenId, created := g.now,
    payment_method := pm, allowance := al,
    billing_address := req.billing_address,
    risk_signals := rs,
    metadata := req.metadata.getD [] }

/-- The response body: only the id, the timestamp and the metadata. -/
def mkDelegateResponse (req : DelegateReq) (g : DelegateGen) :
    DelegateResponse :=
  { id := g.tokenId, created := g.now, metadata := req.metadata.getD [] }

/-- `POST /agentic_commerce/delegate_payment`. -/
def delegateOp (st : ServerState) (req : DelegateReq) (g : DelegateGen) :
    Except ApiError DelegateResponse × ServerState :=
  match req.payment_method with
  | none => (Except.error invalidCardError, st)
  | some pm =>
    if pm.type ≠ "card" then (Except.error invalidCardError, st)
    else
      match req.allowance with
      | none => (Except.error invalidAllowanceError, st)
      | some al =>
        if al.reason ≠ "one_time" then (Except.error invalidAllowanceError, st)
        else
          match req.risk_signals with
          | none => (Except.error riskSignalsError, st)
          | some rs =>
            if rs.isEmpty then (Except.error riskSignalsError, st)
            else
              (Except.ok (mkDelegateResponse req g),
               { st with paymentTokens :=
                   setKey st.paymentTokens g.tokenId (mkToken pm al req rs g) })

/-- One server request (any endpoint, any input).  Freshness of uuid-derived
store keys is a side condition of the generators. -/
inductive Step : ServerState → ServerState → Prop where
  | create (st : ServerState) (req : CreateReq) (g : CreateGen)
      (hfresh : lookupKey st.checkoutSessions g.sessionId = none) :
      Step st (createOp st req g).2
  | update (st : ServerState) (sid : String) (req : UpdateReq) (g : UpdateGen) :
      Step st (updateOp st sid req g).2
  | complete (st : ServerState) (sid : String) (req : CompleteReq)
      (g : CompleteGen)
      (hfresh : lookupKey st.orders g.orderId = none) :
      Step st (completeOp st sid req g).2
  | cancel (st : ServerState) (sid : String) (now : Nat) :
      Step st (cancelOp st sid now).2
  | delegate (st : ServerState) (req : DelegateReq) (g : DelegateGen)
      (hfresh : lookupKey st.paymentTokens g.tokenId = none) :
      Step st (delegateOp st req g).2

/-- States reachable from the empty stores at process start. -/
inductive Reachable : ServerState → Prop where
  | init : Reachable initialState
  | step {st st' : ServerState} : Reachable st → Step st st' → Reachable st'

/-- The session's selected option id names a member of its option menu. -/
def OptionIdValid (s : Session) : Prop :=
  ∃ opt ∈ s.fulfillment_options, opt.id = s.fulfillment_option_id

/-- How one stored session may change in a single step: the option menu is
untouched and a valid option selection stays valid. -/
def SessionEvolves (s s' : Session) : Prop :=
  s'.fulfillment_options = s.fulfillment_options ∧
  (OptionIdValid s → OptionIdValid s')

/-- What any single step does to the `checkoutSessions` map: leaves it
alone, inserts a fresh `ready_for_payment` session with a valid selected
option, or rewrites one existing session compatibly. -/
def SessionsStep (st st' : ServerState) : Prop :=
  st'.checkoutSessions = st.checkoutSessions ∨
  (∃ sid s', lookupKey st.checkoutSessions sid = none ∧
    s'.status = SessionStatus.ready_for_payment ∧ OptionIdValid s' ∧
    st'.checkoutSessions = setKey st.checkoutSessions sid s') ∨
  (∃ sid s s', lookupKey st.checkoutSessions sid = some s ∧
    SessionEvolves s s' ∧
    st'.checkoutSessions = setKey st.checkoutSessions sid s')

/-- Order-count bookkeeping: a session owns one order exactly when it is
completed; unknown session ids own none. -/
def OrdersInv (st : ServerState) : Prop :=
  ∀ sid, countOrders st.orders sid =
    (match lookupKey st.checkoutSessions sid with
     | some s => if s.status = SessionStatus.completed then 1 else 0
     | none => 0)

/-- `payment_method.type` when a payment method was sent at all. -/
def pmTypeOf : Option PaymentMethod → Option String
  | none => none
  | some pm => some pm.type

/-- `allowance.reason` when an allowance was sent at all. -/
def allowanceReasonOf : Option Allowance → Option String
  | none => none
  | some al => some al.reason

/-- `risk_signals` is a non-empty sequence. -/
def hasRiskSignal : Option (List RiskSignal) → Bool
  | none => false
  | some rs => !rs.isEmpty

def isSuccess {α : Type} : Except ApiError α → Bool
  | Except.ok _ => true
  | Except.error _ => false

def dummySession : Session :=
  { id := "", payment_provider := { provider := "", supported_payment_methods := [] },
    status := SessionStatus.ready_for_payment, currency := "",
    line_items := [], fulfillment_address := none, fulfillment_option_id := "",
    totals := [], fulfillment_options := [], messages := [], links := [],
    buyer := none, order := none, created_at := 0, updated_at := 0 }

/-- The stored session under `sid`, defaulting to `dummySession`. -/
def sessionAt (st : ServerState) (sid : String) : Session :=
  (lookupKey st.checkoutSessions sid).getD dummySession

/- Concrete executions used by witnesses and counterexamples. -/

def demoSid : String := "checkout_session_demo0001"

def demoSidB : String := "checkout_session_demo0002"

def demoItem : Item := { id := "item_123", quantity := 1 }

def demoItemB : Item := { id := "item_456", quantity := 2 }

def demoCreateGen : CreateGen :=
  { sessionId := demoSid,
    liIds := fun _ => "line_item_a",
    liAmts := fun _ => 1000,
    optId1 := "fulfillment_option_std1",
    optId2 := "fulfillment_option_exp1",
    now := 0 }

def demoCreateGenB : CreateGen :=
  { demoCreateGen with sessionId := demoSidB }

def demoCreateReq : CreateReq :=
  { items := some [demoItem], buyer := none, fulfillment_address := none }

/-- State after creating one session. -/
def demoState1 : ServerState :=
  (createOp initialState demoCreateReq demoCreateGen).2

def demoUpdateGen : UpdateGen :=
  { liIds := fun _ => "line_item_b", liAmts := fun _ => 2000, now := 5 }

/-- An update that both replaces the items and names an unknown option. -/
def bogusUpdateReq : UpdateReq :=
  { items := some [demoItemB], fulfillment_address := none,
    fulfillment_option_id := some "bogus" }

/-- State after the failing update above. -/
def demoState2 : ServerState :=
  (updateOp demoState1 demoSid bogusUpdateReq demoUpdateGen).2

def demoCompleteReq : CompleteReq :=
  { buyer := none, payment_data := some { token := some "vt_ghost" } }

def demoCompleteGen : CompleteGen := { orderId := "ord_demo0001", now := 9 }

def demoCompleteGenB : CompleteGen := { orderId := "ord_demo0002", now := 11 }

/-- State after completing the single demo session. -/
def demoCompleted : ServerState :=
  (completeOp demoState1 demoSid demoCompleteReq demoCompleteGen).2

/-- Two ready sessions. -/
def demoTwoSessions : ServerState :=
  (createOp demoState1 demoCreateReq demoCreateGenB).2

/-- Both sessions completed, each time with the very same never-minted
token `vt_ghost`. -/
def demoAfterComplete1 : ServerState :=
  (completeOp demoTwoSessions demoSid demoCompleteReq demoCompleteGen).2

def demoPaymentMethod : PaymentMethod :=
  { type := "card", number := "4242424242424242",
    exp_month := "11", exp_year := "2026", cvc := "223" }

def demoAllowance : Allowance :=
  { reason := "one_time", max_amount := 10000, currency := "usd",
    checkout_session_id := "cs_123", merchant_id := "test_merchant",
    expires_at := "2025-10-29T12:00:00Z" }

def demoRiskSignal : RiskSignal :=
  { type := "card_testing", score := 10, action := "authorized" }

def demoDelegateReq : DelegateReq :=
  { payment_method := some demoPaymentMethod,
    allowance := some demoAllowance,
    billing_address := none,
    risk_signals := some [demoRiskSignal],
    metadata := some [("source", "api_test")] }

def demoDelegateGen : DelegateGen := { tokenId := "vt_demo0001", now := 7 }

def demoPaymentMethodBad : PaymentMethod :=
  { demoPaymentMethod with type := "paypal" }

def demoPaymentMethodAlt : PaymentMethod :=
  { demoPaymentMethod with number := "4000000000000002" }

def demoAllowanceBad : Allowance :=
  { demoAllowance with reason := "recurring" }

def demoDelegateReqBadCard : DelegateReq :=
  { demoDelegateReq with payment_method := some demoPaymentMethodBad }

def demoDelegateReqBadAllowance : DelegateReq :=
  { demoDelegateReq with allowance := some demoAllowanceBad }

def demoDelegateReqNoRisk : DelegateReq :=
  { demoDelegateReq with risk_signals := some [] }

def demoDelegateReqAltCard : DelegateReq :=
  { demoDelegateReq with payment_method := some demoPaymentMethodAlt }

/-- Update request whose `items` is the (truthy) empty array. -/
def emptyItemsUpdate : UpdateReq :=
  { items := some [], fulfillment_address := none, fulfillment_option_id := none }

/-- What an empty-items update turns a stored session into, spelled out. -/
def emptiedSession (s : Session) (opt : FulfillmentOption) (now : Nat) : Session :=
  { s with
    line_items := [],
    totals := [
      { type := "items_base_amount", display_text := "Item(s) total", amount := 0 },
      { type := "subtotal", display_text := "Subtotal", amount := 0 },
      { type := "tax", display_text := "Tax", amount := 0 },
      { type := "fulfillment", display_text := "Fulfillment", amount := opt.total },
      { type := "total", display_text := "Total", amount := opt.total } ],
    updated_at := now }

/-! ### Store lemmas -/

theorem lookupKey_setKey_self {α : Type} (l : List (String × α)) (k : String)
    (v : α) : lookupKey (setKey l k v) k = some v := by
  induction l with
  | nil => simp [setKey, lookupKey]
  | cons p rest ih =>
    obtain ⟨k', v'⟩ := p
    by_cases h : k' = k
    · subst h
      simp [setKey, lookupKey]
    · simp [setKey, lookupKey, h, ih]

theorem lookupKey_setKey_ne {α : Type} (l : List (String × α)) (k k' : String)
    (v : α) (h : k' ≠ k) :
    lookupKey (setKey l k v) k' = lookupKey l k' := by
  induction l with
  | nil =>
    have hk : ¬ k = k' := fun hh => h hh.symm
    simp [setKey, lookupKey, hk]
  | cons p rest ih =>
    obtain ⟨a, b⟩ := p
    by_cases ha : a = k
    · subst ha
      have hk : ¬ a = k' := fun hh => h hh.symm
      simp [setKey, lookupKey, hk]
    · simp only [setKey, if_neg ha, lookupKey]
      by_cases hb : a = k'
      · simp [hb]
      · simp [hb, ih]

theorem setKey_lookup_self {α : Type} (l : List (String × α)) (k : String)
    (v : α) (h : lookupKey l k = some v) : setKey l k v = l := by
  induction l with
  | nil => simp [lookupKey] at h
  | cons p rest ih =>
    obtain ⟨a, b⟩ := p
    by_cases ha : a = k
    · subst ha
      rw [lookupKey, if_pos rfl, Option.some.injEq] at h
      simp [setKey, h]
    · simp only [lookupKey, if_neg ha] at h
      simp [setKey, ha, ih h]

theorem countOrders_setKey_fresh (l : List (String × Order)) (k : String)
    (o : Order) (h : lookupKey l k = none) (sid : String) :
    countOrders (setKey l k o) sid =
      countOrders l sid + (if o.checkout_session_id = sid then 1 else 0) := by
  induction l with
  | nil => simp [setKey, countOrders, Nat.add_comm]
  | cons p rest ih =>
    obtain ⟨a, b⟩ := p
    by_cases ha : a = k
    · subst ha
      simp [lookupKey] at h
    · simp only [lookupKey, if_neg ha] at h
      simp only [setKey, if_neg ha, countOrders, ih h]
      omega

theorem findOption_mem (l : List FulfillmentOption) (fid : String)
    (opt : FulfillmentOption) (h : findOption l fid = some opt) :
    opt ∈ l ∧ opt.id = fid := by
  induction l with
  | nil => simp [findOption] at h
  | cons a rest ih =>
    by_cases ha : a.id = fid
    · simp only [findOption, if_pos ha, Option.some.injEq] at h
      subst h
      exact ⟨List.mem_cons_self _ _, ha⟩
    · simp only [findOption, if_neg ha] at h
      obtain ⟨h1, h2⟩ := ih h
      exact ⟨List.mem_cons_of_mem _ h1, h2⟩

/-! ### Field-preservation lemmas for the update endpoint -/

theorem applyItems_status (s : Session) (req : UpdateReq) (g : UpdateGen) :
    (applyItems s req g).status = s.status ∧
    (applyItems s req g).fulfillment_options = s.fulfillment_options ∧
    (applyItems s req g).fulfillment_option_id = s.fulfillment_option_id := by
  unfold applyItems
  cases req.items <;> simp

theorem applyAddress_status (s : Session) (req : UpdateReq) :
    (applyAddress s req).status = s.status ∧
    (applyAddress s req).fulfillment_options = s.fulfillment_options ∧
    (applyAddress s req).fulfillment_option_id = s.fulfillment_option_id := by
  unfold applyAddress
  cases req.fulfillment_address <;> simp

theorem applyBoth_fields (s : Session) (req : UpdateReq) (g : UpdateGen) :
    (applyAddress (applyItems s req g) req).status = s.status ∧
    (applyAddress (applyItems s req g) req).fulfillment_options =
      s.fulfillment_options ∧
    (applyAddress (applyItems s req g) req).fulfillment_option_id =
      s.fulfillment_option_id := by
  obtain ⟨h1, h2, h3⟩ := applyItems_status s req g
  obtain ⟨h4, h5, h6⟩ := applyAddress_status (applyItems s req g) req
  exact ⟨h4.trans h1, h5.trans h2, h6.trans h3⟩

theorem updApplied_fields (s : Session) (req : UpdateReq) (g : UpdateGen) :
    (updApplied s req g).status = s.status ∧
    (updApplied s req g).fulfillment_options = s.fulfillment_options ∧
    (updApplied s req g).fulfillment_option_id = s.fulfillment_option_id :=
  applyBoth_fields s req g

theorem recompute_fields (s : Session) (now : Nat) :
    (recompute s now).status = s.status ∧
    (recompute s now).fulfillment_options = s.fulfillment_options ∧
    (recompute s now).fulfillment_option_id = s.fulfillment_option_id ∧
    (recompute s now).line_items = s.line_items := by
  simp [recompute]

theorem optionIdValid_of_same (s s' : Session)
    (hopts : s'.fulfillment_options = s.fulfillment_options)
    (hid : s'.fulfillment_option_id = s.fulfillment_option_id)
    (h : OptionIdValid s) : OptionIdValid s' := by
  obtain ⟨opt, hmem, hoid⟩ := h
  refine ⟨opt, ?_, ?_⟩
  · rw [hopts]; exact hmem
  · rw [hid]; exact hoid

/-! ### Shape of each endpoint's effect on the stores -/

theorem createOp_state (st : ServerState) (req : CreateReq) (g : CreateGen) :
    (createOp st req g).2 = st ∨
    ∃ s', s'.status = SessionStatus.ready_for_payment ∧ OptionIdValid s' ∧
      (createOp st req g).2 =
        { st with checkoutSessions := setKey st.checkoutSessions g.sessionId s' } := by
  unfold createOp
  cases hi : req.items with
  | none => exact Or.inl rfl
  | some items =>
    dsimp only
    by_cases he : items.isEmpty
    · rw [if_pos he]; exact Or.inl rfl
    · rw [if_neg he]
      right
      refine ⟨newSession items req g, rfl, ?_, rfl⟩
      refine ⟨standardOption g.now g.optId1, ?_, rfl⟩
      simp [newSession, createFulfillmentOptions]

theorem updateOp_state (st : ServerState) (sid : String) (req : UpdateReq)
    (g : UpdateGen) :
    (updateOp st sid req g).2 = st ∨
    ∃ s s', lookupKey st.checkoutSessions sid = some s ∧
      s.status = SessionStatus.ready_for_payment ∧
      s'.status = s.status ∧ SessionEvolves s s' ∧
      (updateOp st sid req g).2 =
        { st with checkoutSessions := setKey st.checkoutSessions sid s' } := by
  unfold updateOp
  cases hl : lookupKey st.checkoutSessions sid with
  | none => exact Or.inl rfl
  | some s =>
    dsimp only
    by_cases hst : s.status = SessionStatus.completed ∨
        s.status = SessionStatus.canceled
    · rw [if_pos hst]; exact Or.inl rfl
    · rw [if_neg hst]
      have hready : s.status = SessionStatus.ready_for_payment := by
        cases h : s.status
        · rfl
        · exact absurd (Or.inl h) hst
        · exact absurd (Or.inr h) hst
      obtain ⟨hA1, hA2, hA3⟩ := updApplied_fields s req g
      cases ho : truthyOptionId req with
      | none =>
        dsimp only
        right
        refine ⟨s, recompute (updApplied s req g) g.now, rfl, hready, ?_, ⟨?_, ?_⟩, rfl⟩
        · rw [(recompute_fields _ _).1, hA1]
        · rw [(recompute_fields _ _).2.1, hA2]
        · intro hv
          refine optionIdValid_of_same _ _ ?_ ?_ hv
          · rw [(recompute_fields _ _).2.1, hA2]
          · rw [(recompute_fields _ _).2.2.1, hA3]
      | some fid =>
        dsimp only
        cases hf : findOption (updApplied s req g).fulfillment_options fid with
        | none =>
          dsimp only
          right
          refine ⟨s, updApplied s req g, rfl, hready, hA1, ⟨hA2, ?_⟩, rfl⟩
          intro hv
          exact optionIdValid_of_same _ _ hA2 hA3 hv
        | some opt =>
          dsimp only
          right
          obtain ⟨hmem, hoid⟩ := findOption_mem _ _ _ hf
          refine ⟨s, recompute { updApplied s req g with fulfillment_option_id := fid } g.now,
            rfl, hready, ?_, ⟨?_, ?_⟩, rfl⟩
          · rw [(recompute_fields _ _).1]
            simpa using hA1
          · rw [(recompute_fields _ _).2.1]
            simpa using hA2
          · intro _
            refine ⟨opt, ?_, ?_⟩
            · rw [(recompute_fields _ _).2.1]
              simpa using hmem
            · rw [(recompute_fields _ _).2.2.1]
              simpa using hoid

theorem completeOp_state (st : ServerState) (sid : String) (req : CompleteReq)
    (g : CompleteGen) :
    (completeOp st sid req g).2 = st ∨
    ∃ s, lookupKey st.checkoutSessions sid = some s ∧
      s.status = SessionStatus.ready_for_payment ∧
      (completeOp st sid req g).2 =
        { st with
            orders := setKey st.orders g.orderId (mkOrder sid g),
            checkoutSessions := setKey st.checkoutSessions sid (completedSession s sid req g) } := by
  unfold completeOp
  cases hl : lookupKey st.checkoutSessions sid with
  | none => exact Or.inl rfl
  | some s =>
    dsimp only
    by_cases hst : s.status ≠ SessionStatus.ready_for_payment
    · rw [if_pos hst]; exact Or.inl rfl
    · rw [if_neg hst]
      push_neg at hst
      cases ht : truthyToken req.payment_data with
      | none => exact Or.inl rfl
      | some t =>
        dsimp only
        exact Or.inr ⟨s, rfl, hst, rfl⟩

theorem completedSession_fields (s : Session) (sid : String) (req : CompleteReq)
    (g : CompleteGen) :
    (completedSession s sid req g).status = SessionStatus.completed ∧
    (completedSession s sid req g).fulfillment_options = s.fulfillment_options ∧
    (completedSession s sid req g).fulfillment_option_id = s.fulfillment_option_id := by
  simp [completedSession]

theorem canceledSession_fields (s : Session) (now : Nat) :
    (canceledSession s now).status = SessionStatus.canceled ∧
    (canceledSession s now).fulfillment_options = s.fulfillment_options ∧
    (canceledSession s now).fulfillment_option_id = s.fulfillment_option_id := by
  simp [canceledSession]

theorem cancelOp_state (st : ServerState) (sid : String) (now : Nat) :
    (cancelOp st sid now).2 = st ∨
    ∃ s, lookupKey st.checkoutSessions sid = some s ∧
      s.status = SessionStatus.ready_for_payment ∧
      (cancelOp st sid now).2 =
        { st with checkoutSessions := setKey st.checkoutSessions sid (canceledSession s now) } := by
  unfold cancelOp
  cases hl : lookupKey st.checkoutSessions sid with
  | none => exact Or.inl rfl
  | some s =>
    dsimp only
    by_cases hst : s.status = SessionStatus.completed ∨
        s.status = SessionStatus.canceled
    · rw [if_pos hst]; exact Or.inl rfl
    · rw [if_neg hst]
      have hready : s.status = SessionStatus.ready_for_payment := by
        cases h : s.status
        · rfl
        · exact absurd (Or.inl h) hst
        · exact absurd (Or.inr h) hst
      exact Or.inr ⟨s, rfl, hready, rfl⟩

theorem delegateOp_state (st : ServerState) (req : DelegateReq) (g : DelegateGen) :
    (delegateOp st req g).2.checkoutSessions = st.checkoutSessions ∧
    (delegateOp st req g).2.orders = st.orders := by
  unfold delegateOp
  cases h0 : req.payment_method with
  | none => exact ⟨rfl, rfl⟩
  | some pm =>
    dsimp only
    by_cases h1 : pm.type ≠ "card"
    · rw [if_pos h1]; exact ⟨rfl, rfl⟩
    · rw [if_neg h1]
      cases h2 : req.allowance with
      | none => exact ⟨rfl, rfl⟩
      | some al =>
        dsimp only
        by_cases h3 : al.reason ≠ "one_time"
        · rw [if_pos h3]; exact ⟨rfl, rfl⟩
        · rw [if_neg h3]
          cases h4 : req.risk_signals with
          | none => exact ⟨rfl, rfl⟩
          | some rs =>
            dsimp only
            by_cases h5 : rs.isEmpty = true
            · rw [if_pos h5]; exact ⟨rfl, rfl⟩
            · rw [if_neg h5]; exact ⟨rfl, rfl⟩

/-! ### Invariants over reachable server states -/

theorem step_sessions {st st' : ServerState} (h : Step st st') :
    SessionsStep st st' := by
  cases h with
  | create req g hfresh =>
    rcases createOp_state st req g with h1 | ⟨s', hstat, hval, h1⟩
    · exact Or.inl (by rw [h1])
    · exact Or.inr (Or.inl ⟨g.sessionId, s', hfresh, hstat, hval, by rw [h1]⟩)
  | update sid req g =>
    rcases updateOp_state st sid req g with h1 | ⟨s, s', hl, hready, hstat, hev, h1⟩
    · exact Or.inl (by rw [h1])
    · exact Or.inr (Or.inr ⟨sid, s, s', hl, hev, by rw [h1]⟩)
  | complete sid req g hfresh =>
    rcases completeOp_state st sid req g with h1 | ⟨s, hl, hready, h1⟩
    · exact Or.inl (by rw [h1])
    · refine Or.inr (Or.inr ⟨sid, s, completedSession s sid req g, hl, ⟨?_, ?_⟩, by rw [h1]⟩)
      · exact (completedSession_fields s sid req g).2.1
      · intro hv
        exact optionIdValid_of_same _ _ (completedSession_fields s sid req g).2.1
          (completedSession_fields s sid req g).2.2 hv
  | cancel sid now =>
    rcases cancelOp_state st sid now with h1 | ⟨s, hl, hready, h1⟩
    · exact Or.inl (by rw [h1])
    · refine Or.inr (Or.inr ⟨sid, s, canceledSession s now, hl, ⟨?_, ?_⟩, by rw [h1]⟩)
      · exact (canceledSession_fields s now).2.1
      · intro hv
        exact optionIdValid_of_same _ _ (canceledSession_fields s now).2.1
          (canceledSession_fields s now).2.2 hv
  | delegate req g hfresh =>
    exact Or.inl (delegateOp_state st req g).1

theorem reachable_optionIdValid {st : ServerState} (hr : Reachable st) :
    ∀ sid s, lookupKey st.checkoutSessions sid = some s → OptionIdValid s := by
  induction hr with
  | init =>
    intro sid s h
    simp [initialState, lookupKey] at h
  | @step st1 st2 hr hstep ih =>
    intro sid s h
    rcases step_sessions hstep with hsame |
      ⟨sid0, s0, hfresh, hstat0, hval0, hset⟩ | ⟨sid0, sOld, s0, hlook, hev, hset⟩
    · rw [hsame] at h
      exact ih _ _ h
    · rw [hset] at h
      by_cases e : sid = sid0
      · subst e
        rw [lookupKey_setKey_self] at h
        cases h
        exact hval0
      · rw [lookupKey_setKey_ne _ _ _ _ e] at h
        exact ih _ _ h
    · rw [hset] at h
      by_cases e : sid = sid0
      · subst e
        rw [lookupKey_setKey_self] at h
        cases h
        exact hev.2 (ih _ _ hlook)
      · rw [lookupKey_setKey_ne _ _ _ _ e] at h
        exact ih _ _ h

theorem step_preserves_options {st st' : ServerState} (h : Step st st') :
    ∀ sid s s', lookupKey st.checkoutSessions sid = some s →
      lookupKey st'.checkoutSessions sid = some s' →
      s'.fulfillment_options = s.fulfillment_options := by
  intro sid s s' h1 h2
  rcases step_sessions h with hsame |
    ⟨sid0, s0, hfresh, hstat0, hval0, hset⟩ | ⟨sid0, sOld, s0, hlook, hev, hset⟩
  · rw [hsame, h1] at h2
    cases h2
    rfl
  · rw [hset] at h2
    by_cases e : sid = sid0
    · subst e
      exact Option.noConfusion (h1.symm.trans hfresh)
    · rw [lookupKey_setKey_ne _ _ _ _ e, h1] at h2
      cases h2
      rfl
  · rw [hset] at h2
    by_cases e : sid = sid0
    · subst e
      rw [lookupKey_setKey_self] at h2
      obtain rfl : sOld = s := Option.some.inj (hlook.symm.trans h1)
      cases h2
      exact hev.1
    · rw [lookupKey_setKey_ne _ _ _ _ e, h1] at h2
      cases h2
      rfl

theorem reachable_ordersInv {st : ServerState} (hr : Reachable st) :
    OrdersInv st := by
  induction hr with
  | init =>
    intro sid
    simp [initialState, countOrders, lookupKey]
  | @step st1 st2 hr hstep ih =>
    cases hstep with
    | create req g hfresh =>
      rcases createOp_state st1 req g with h1 | ⟨s', hstat, hval, h1⟩
      · rw [h1]; exact ih
      · rw [h1]
        intro sid
        dsimp only
        by_cases e : sid = g.sessionId
        · subst e
          rw [lookupKey_setKey_self]
          have h0 := ih g.sessionId
          rw [hfresh] at h0
          dsimp only at h0 ⊢
          rw [hstat] at *
          simpa using h0
        · rw [lookupKey_setKey_ne _ _ _ _ e]
          exact ih sid
    | update sid0 req g =>
      rcases updateOp_state st1 sid0 req g with h1 | ⟨s, s', hl, hready, hstat, hev, h1⟩
      · rw [h1]; exact ih
      · rw [h1]
        intro sid
        dsimp only
        by_cases e : sid = sid0
        · rw [e]
          rw [lookupKey_setKey_self]
          have h0 := ih sid0
          rw [hl] at h0
          dsimp only at h0 ⊢
          rw [hstat]
          exact h0
        · rw [lookupKey_setKey_ne _ _ _ _ e]
          exact ih sid
    | complete sid0 req g hfresh =>
      rcases completeOp_state st1 sid0 req g with h1 | ⟨s, hl, hready, h1⟩
      · rw [h1]; exact ih
      · rw [h1]
        intro sid
        dsimp only
        rw [countOrders_setKey_fresh _ _ _ hfresh]
        by_cases e : sid = sid0
        · rw [e]
          rw [lookupKey_setKey_self]
          have h0 := ih sid0
          rw [hl] at h0
          dsimp only at h0 ⊢
          rw [hready] at h0
          simp only [reduceCtorEq, if_false] at h0
          simp [mkOrder, h0, completedSession]
        · rw [lookupKey_setKey_ne _ _ _ _ e]
          have hne : ¬ ((mkOrder sid0 g).checkout_session_id = sid) := by
            simp only [mkOrder]
            exact fun hh => e hh.symm
          rw [if_neg hne, Nat.add_zero]
          exact ih sid
    | cancel sid0 now =>
      rcases cancelOp_state st1 sid0 now with h1 | ⟨s, hl, hready, h1⟩
      · rw [h1]; exact ih
      · rw [h1]
        intro sid
        dsimp only
        by_cases e : sid = sid0
        · rw [e]
          rw [lookupKey_setKey_self]
          have h0 := ih sid0
          rw [hl] at h0
          dsimp only at h0 ⊢
          rw [hready] at h0
          simp only [reduceCtorEq, if_false] at h0
          simpa [canceledSession] using h0
        · rw [lookupKey_setKey_ne _ _ _ _ e]
          exact ih sid
    | delegate req g hfresh =>
      have hd := delegateOp_state st1 req g
      intro sid
      rw [hd.1, hd.2]
      exact ih sid

/-! ### Success and failure shapes of the endpoints -/

theorem recompute_totals (s : Session) (now : Nat) :
    (recompute s now).totals =
      calculateTotals (recompute s now).line_items
        (findOption (recompute s now).fulfillment_options
          (recompute s now).fulfillment_option_id) := by
  simp [recompute]

theorem createOp_ok (st : ServerState) (req : CreateReq) (g : CreateGen)
    (s' : Session) (st2 : ServerState)
    (h : createOp st req g = (Except.ok s', st2)) :
    ∃ items, req.items = some items ∧ items ≠ [] ∧
      s' = newSession items req g ∧
      st2 = { st with checkoutSessions := setKey st.checkoutSessions g.sessionId (newSession items req g) } := by
  unfold createOp at h
  cases hi : req.items with
  | none =>
    rw [hi] at h
    dsimp only at h
    simp at h
  | some items =>
    rw [hi] at h
    dsimp only at h
    by_cases he : items.isEmpty = true
    · rw [if_pos he] at h
      simp at h
    · rw [if_neg he] at h
      simp only [Prod.mk.injEq, Except.ok.injEq] at h
      obtain ⟨h1, h2⟩ := h
      refine ⟨items, rfl, ?_, h1.symm, h2.symm⟩
      intro hnil
      exact he (by simp [hnil])

theorem updateOp_ok (st : ServerState) (sid : String) (req : UpdateReq)
    (g : UpdateGen) (s4 : Session) (st2 : ServerState)
    (h : updateOp st sid req g = (Except.ok s4, st2)) :
    st2 = { st with checkoutSessions := setKey st.checkoutSessions sid s4 } ∧
    s4.totals = calculateTotals s4.line_items
      (findOption s4.fulfillment_options s4.fulfillment_option_id) := by
  unfold updateOp at h
  cases hl : lookupKey st.checkoutSessions sid with
  | none =>
    rw [hl] at h
    dsimp only at h
    simp at h
  | some s =>
    rw [hl] at h
    dsimp only at h
    by_cases hst : s.status = SessionStatus.completed ∨
        s.status = SessionStatus.canceled
    · rw [if_pos hst] at h
      simp at h
    · rw [if_neg hst] at h
      cases ho : truthyOptionId req with
      | none =>
        rw [ho] at h
        dsimp only at h
        simp only [Prod.mk.injEq, Except.ok.injEq] at h
        obtain ⟨h1, h2⟩ := h
        subst h1
        exact ⟨h2.symm, recompute_totals _ _⟩
      | some fid =>
        rw [ho] at h
        dsimp only at h
        cases hf : findOption (updApplied s req g).fulfillment_options fid with
        | none =>
          rw [hf] at h
          dsimp only at h
          simp at h
        | some opt =>
          rw [hf] at h
          dsimp only at h
          simp only [Prod.mk.injEq, Except.ok.injEq] at h
          obtain ⟨h1, h2⟩ := h
          subst h1
          exact ⟨h2.symm, recompute_totals _ _⟩

theorem completeOp_ok (st : ServerState) (sid : String) (req : CompleteReq)
    (g : CompleteGen) (s1 : Session) (st1 : ServerState)
    (h : completeOp st sid req g = (Except.ok s1, st1)) :
    ∃ s t, lookupKey st.checkoutSessions sid = some s ∧
      s.status = SessionStatus.ready_for_payment ∧
      truthyToken req.payment_data = some t ∧
      s1 = completedSession s sid req g ∧
      st1 = { st with
        orders := setKey st.orders g.orderId (mkOrder sid g),
        checkoutSessions := setKey st.checkoutSessions sid (completedSession s sid req g) } := by
  unfold completeOp at h
  cases hl : lookupKey st.checkoutSessions sid with
  | none =>
    rw [hl] at h
    dsimp only at h
    simp at h
  | some s =>
    rw [hl] at h
    dsimp only at h
    by_cases hst : s.status ≠ SessionStatus.ready_for_payment
    · rw [if_pos hst] at h
      simp at h
    · rw [if_neg hst] at h
      push_neg at hst
      cases ht : truthyToken req.payment_data with
      | none =>
        rw [ht] at h
        dsimp only at h
        simp at h
      | some t =>
        rw [ht] at h
        dsimp only at h
        simp only [Prod.mk.injEq, Except.ok.injEq] at h
        obtain ⟨h1, h2⟩ := h
        exact ⟨s, t, rfl, hst, rfl, h1.symm, h2.symm⟩

theorem completeOp_succeeds (st : ServerState) (sid : String) (req : CompleteReq)
    (g : CompleteGen) (s : Session) (t : String)
    (hl : lookupKey st.checkoutSessions sid = some s)
    (hready : s.status = SessionStatus.ready_for_payment)
    (ht : truthyToken req.payment_data = some t) :
    completeOp st sid req g =
      (Except.ok (completedSession s sid req g),
       { st with
         orders := setKey st.orders g.orderId (mkOrder sid g),
         checkoutSessions := setKey st.checkoutSessions sid (completedSession s sid req g) }) := by
  unfold completeOp
  rw [hl]
  dsimp only
  rw [if_neg (fun hn => hn hready), ht]

theorem delegateOp_invalidCard (st : ServerState) (req : DelegateReq)
    (g : DelegateGen) (h : pmTypeOf req.payment_method ≠ some "card") :
    delegateOp st req g = (Except.error invalidCardError, st) := by
  unfold delegateOp
  cases hp : req.payment_method with
  | none => rfl
  | some pm =>
    dsimp only
    rw [hp] at h
    have hty : pm.type ≠ "card" := by
      intro hh
      exact h (by rw [pmTypeOf, hh])
    rw [if_pos hty]

theorem delegateOp_invalidAllowance (st : ServerState) (req : DelegateReq)
    (g : DelegateGen) (pm : PaymentMethod)
    (hpm : req.payment_method = some pm) (hty : pm.type = "card")
    (h : allowanceReasonOf req.allowance ≠ some "one_time") :
    delegateOp st req g = (Except.error invalidAllowanceError, st) := by
  unfold delegateOp
  rw [hpm]
  dsimp only
  rw [if_neg (fun hn => hn hty)]
  cases ha : req.allowance with
  | none => rfl
  | some al =>
    dsimp only
    rw [ha] at h
    have hrsn : al.reason ≠ "one_time" := by
      intro hh
      exact h (by rw [allowanceReasonOf, hh])
    rw [if_pos hrsn]

theorem delegateOp_missingRisk (st : ServerState) (req : DelegateReq)
    (g : DelegateGen) (pm : PaymentMethod) (al : Allowance)
    (hpm : req.payment_method = some pm) (hty : pm.type = "card")
    (hal : req.allowance = some al) (hrsn : al.reason = "one_time")
    (h : hasRiskSignal req.risk_signals = false) :
    delegateOp st req g = (Except.error riskSignalsError, st) := by
  unfold delegateOp
  rw [hpm]
  dsimp only
  rw [if_neg (fun hn => hn hty), hal]
  dsimp only
  rw [if_neg (fun hn => hn hrsn)]
  cases hr : req.risk_signals with
  | none => rfl
  | some rs =>
    dsimp only
    rw [hr] at h
    rw [hasRiskSignal] at h
    have he : rs.isEmpty = true := by
      cases hie : rs.isEmpty
      · rw [hie] at h
        simp at h
      · rfl
    rw [if_pos he]

theorem delegateOp_err_state (st : ServerState) (req : DelegateReq)
    (g : DelegateGen) (e : ApiError) (st2 : ServerState)
    (h : delegateOp st req g = (Except.error e, st2)) : st2 = st := by
  unfold delegateOp at h
  cases hp : req.payment_method with
  | none =>
    rw [hp] at h
    dsimp only at h
    simp only [Prod.mk.injEq] at h
    exact h.2.symm
  | some pm =>
    rw [hp] at h
    dsimp only at h
    by_cases h1 : pm.type ≠ "card"
    · rw [if_pos h1] at h
      simp only [Prod.mk.injEq] at h
      exact h.2.symm
    · rw [if_neg h1] at h
      cases ha : req.allowance with
      | none =>
        rw [ha] at h
        dsimp only at h
        simp only [Prod.mk.injEq] at h
        exact h.2.symm
      | some al =>
        rw [ha] at h
        dsimp only at h
        by_cases h2 : al.reason ≠ "one_time"
        · rw [if_pos h2] at h
          simp only [Prod.mk.injEq] at h
          exact h.2.symm
        · rw [if_neg h2] at h
          cases hr : req.risk_signals with
          | none =>
            rw [hr] at h
            dsimp only at h
            simp only [Prod.mk.injEq] at h
            exact h.2.symm
          | some rs =>
            rw [hr] at h
            dsimp only at h
            by_cases h3 : rs.isEmpty = true
            · rw [if_pos h3] at h
              simp only [Prod.mk.injEq] at h
              exact h.2.symm
            · rw [if_neg h3] at h
              simp at h

theorem delegateOp_ok_eq (st : ServerState) (req : DelegateReq)
    (g : DelegateGen) (pm : PaymentMethod) (al : Allowance)
    (rs : List RiskSignal)
    (hpm : req.payment_method = some pm) (hty : pm.type = "card")
    (hal : req.allowance = some al) (hrsn : al.reason = "one_time")
    (hrs : req.risk_signals = some rs) (hne : rs ≠ []) :
    delegateOp st req g =
      (Except.ok (mkDelegateResponse req g),
       { st with paymentTokens := setKey st.paymentTokens g.tokenId (mkToken pm al req rs g) }) := by
  unfold delegateOp
  rw [hpm]
  dsimp only
  rw [if_neg (fun hn => hn hty), hal]
  dsimp only
  rw [if_neg (fun hn => hn hrsn), hrs]
  dsimp only
  rw [if_neg (by simpa using hne)]

theorem foldl_base_amount (l : List LineItem) (n : Nat) :
    l.foldl (fun sum item => sum + item.base_amount) n =
      n + (l.map LineItem.base_amount).sum := by
  induction l generalizing n with
  | nil => simp
  | cons a rest ih => simp [ih, Nat.add_assoc]

theorem demoState1_reachable : Reachable demoState1 :=
  Reachable.step Reachable.init
    (Step.create initialState demoCreateReq demoCreateGen rfl)

theorem demoTwoSessions_reachable : Reachable demoTwoSessions :=
  Reachable.step demoState1_reachable
    (Step.create demoState1 demoCreateReq demoCreateGenB rfl)

theorem demoAfterComplete1_reachable : Reachable demoAfterComplete1 :=
  Reachable.step demoTwoSessions_reachable
    (Step.complete demoTwoSessions demoSid demoCompleteReq demoCompleteGen rfl)

/-! ### Claim theorems -/

/-- C7: for every line-item sequence and selected option, `calculateTotals`
returns exactly five entries, in the order items_base_amount, subtotal, tax,
fulfillment, total (each present even when zero); items_base_amount is the
sum of the line items' base amounts, subtotal equals it, tax is the floor of
10% of subtotal, fulfillment is the selected option's total (0 when none),
and total is subtotal + tax + fulfillment. -/
theorem calculateTotals_breakdown (lineItems : List LineItem)
    (opt : Option FulfillmentOption) :
    calculateTotals lineItems opt =
      [ { type := "items_base_amount", display_text := "Item(s) total",
          amount := (lineItems.map LineItem.base_amount).sum },
        { type := "subtotal", display_text := "Subtotal",
          amount := (lineItems.map LineItem.base_amount).sum },
        { type := "tax", display_text := "Tax",
          amount := (lineItems.map LineItem.base_amount).sum / 10 },
        { type := "fulfillment", display_text := "Fulfillment",
          amount := (match opt with | some o => o.total | none => 0) },
        { type := "total", display_text := "Total",
          amount := (lineItems.map LineItem.base_amount).sum +
            (lineItems.map LineItem.base_amount).sum / 10 +
            (match opt with | some o => o.total | none => 0) } ] := by
  cases opt <;> simp [calculateTotals, foldl_base_amount]

/-- C2: after every successful Create or Update, the session stored under
the session's id is the returned snapshot, and its `totals` equals exactly
`calculateTotals` applied to its current `line_items` and its currently
selected fulfillment option. -/
theorem totals_recomputed_on_success :
    (∀ (st : ServerState) (req : CreateReq) (g : CreateGen) (s' : Session)
       (st2 : ServerState), createOp st req g = (Except.ok s', st2) →
       lookupKey st2.checkoutSessions s'.id = some s' ∧
       s'.totals = calculateTotals s'.line_items
         (findOption s'.fulfillment_options s'.fulfillment_option_id)) ∧
    (∀ (st : ServerState) (sid : String) (req : UpdateReq) (g : UpdateGen)
       (s' : Session) (st2 : ServerState),
       updateOp st sid req g = (Except.ok s', st2) →
       lookupKey st2.checkoutSessions sid = some s' ∧
       s'.totals = calculateTotals s'.line_items
         (findOption s'.fulfillment_options s'.fulfillment_option_id)) := by
  constructor
  · intro st req g s' st2 h
    obtain ⟨items, hi, hne, hs, hst2⟩ := createOp_ok st req g s' st2 h
    subst hs
    constructor
    · rw [hst2]
      exact lookupKey_setKey_self _ _ _
    · show (newSession items req g).totals = _
      simp [newSession, createFulfillmentOptions, findOption, standardOption]
  · intro st sid req g s' st2 h
    obtain ⟨hst2, htot⟩ := updateOp_ok st sid req g s' st2 h
    refine ⟨?_, htot⟩
    rw [hst2]
    exact lookupKey_setKey_self _ _ _

/-- C2 witness: the create and update branches exercised on a concrete
session. -/
theorem totals_recomputed_on_success_witness :
    (lookupKey demoState1.checkoutSessions (sessionAt demoState1 demoSid).id =
       some (sessionAt demoState1 demoSid) ∧
     (sessionAt demoState1 demoSid).totals =
       calculateTotals (sessionAt demoState1 demoSid).line_items
         (findOption (sessionAt demoState1 demoSid).fulfillment_options
           (sessionAt demoState1 demoSid).fulfillment_option_id)) :=
  totals_recomputed_on_success.1 initialState demoCreateReq demoCreateGen
    (sessionAt demoState1 demoSid) demoState1 rfl

/-- C4: cancel on a terminal (completed or canceled) session fails with the
405 cancel error, distinct as a response from the 400 invalid-status errors
that Update and Complete return, and the server state is left unchanged. -/
theorem cancel_terminal_distinct_error (st : ServerState) (sid : String)
    (now : Nat) (s : Session)
    (hl : lookupKey st.checkoutSessions sid = some s)
    (hterm : s.status = SessionStatus.completed ∨
      s.status = SessionStatus.canceled) :
    cancelOp st sid now = (Except.error (cancelInvalidStatusError s.status), st) ∧
    (cancelInvalidStatusError s.status).httpStatus = 405 ∧
    (cancelInvalidStatusError s.status).code = "invalid_status" ∧
    (∀ s2 : SessionStatus,
      cancelInvalidStatusError s.status ≠ updateInvalidStatusError s2) ∧
    (∀ s2 : SessionStatus,
      cancelInvalidStatusError s.status ≠ completeInvalidStatusError s2) := by
  refine ⟨?_, rfl, rfl, ?_, ?_⟩
  · unfold cancelOp
    rw [hl]
    dsimp only
    rw [if_pos hterm]
  · intro s2 hh
    have h405 := congrArg ApiError.httpStatus hh
    simp [cancelInvalidStatusError, updateInvalidStatusError] at h405
  · intro s2 hh
    have h405 := congrArg ApiError.httpStatus hh
    simp [cancelInvalidStatusError, completeInvalidStatusError] at h405

/-- C4 witness: canceling a concrete completed session. -/
theorem cancel_terminal_distinct_error_witness :
    cancelOp demoCompleted demoSid 42 =
      (Except.error (cancelInvalidStatusError (sessionAt demoCompleted demoSid).status),
       demoCompleted) ∧
    (cancelInvalidStatusError (sessionAt demoCompleted demoSid).status).httpStatus = 405 ∧
    cancelInvalidStatusError (sessionAt demoCompleted demoSid).status ≠
      updateInvalidStatusError SessionStatus.completed ∧
    cancelInvalidStatusError (sessionAt demoCompleted demoSid).status ≠
      completeInvalidStatusError SessionStatus.completed :=
  ⟨(cancel_terminal_distinct_error demoCompleted demoSid 42
      (sessionAt demoCompleted demoSid) rfl (Or.inl rfl)).1,
   (cancel_terminal_distinct_error demoCompleted demoSid 42
      (sessionAt demoCompleted demoSid) rfl (Or.inl rfl)).2.1,
   (cancel_terminal_distinct_error demoCompleted demoSid 42
      (sessionAt demoCompleted demoSid) rfl (Or.inl rfl)).2.2.2.1
     SessionStatus.completed,
   (cancel_terminal_distinct_error demoCompleted demoSid 42
      (sessionAt demoCompleted demoSid) rfl (Or.inl rfl)).2.2.2.2
     SessionStatus.completed⟩

/-- C1 counterexample: an Update supplying both replacement items and an
unknown `fulfillment_option_id` fails with the `invalid` error, yet the
stored session's `line_items` have changed while `totals` kept their old
value — which is now stale with respect to the pricing calculator.  So a
failing Update is not atomic. -/
theorem update_failure_mutates_counterexample :
    (updateOp demoState1 demoSid bogusUpdateReq demoUpdateGen).1 =
      Except.error invalidOptionError ∧
    (lookupKey demoState2.checkoutSessions demoSid).map Session.line_items ≠
      (lookupKey demoState1.checkoutSessions demoSid).map Session.line_items ∧
    (lookupKey demoState2.checkoutSessions demoSid).map Session.totals =
      (lookupKey demoState1.checkoutSessions demoSid).map Session.totals ∧
    (sessionAt demoState2 demoSid).totals ≠
      calculateTotals (sessionAt demoState2 demoSid).line_items
        (findOption (sessionAt demoState2 demoSid).fulfillment_options
          (sessionAt demoState2 demoSid).fulfillment_option_id) := by
  exact ⟨rfl, by decide, rfl, by decide⟩

/-- C1 amended: when Update's `fulfillment_option_id` validation fails, the
stored session is exactly the input session with the supplied `items` /
`fulfillment_address` replacements already applied (they persist, with
`totals` and `updated_at` not refreshed); only when the failing request
supplies neither items nor an address is the session — and the whole
state — left untouched. -/
theorem update_invalid_option_partial_write (st : ServerState) (sid : String)
    (req : UpdateReq) (g : UpdateGen) (s : Session) (fid : String)
    (hl : lookupKey st.checkoutSessions sid = some s)
    (hready : s.status = SessionStatus.ready_for_payment)
    (hfid : truthyOptionId req = some fid)
    (hnf : findOption s.fulfillment_options fid = none) :
    updateOp st sid req g =
      (Except.error invalidOptionError,
       { st with checkoutSessions := setKey st.checkoutSessions sid (updApplied s req g) }) ∧
    (req.items = none → req.fulfillment_address = none →
      updateOp st sid req g = (Except.error invalidOptionError, st)) := by
  have hnf2 : findOption (updApplied s req g).fulfillment_options fid = none := by
    rw [(updApplied_fields s req g).2.1]
    exact hnf
  have hmain : updateOp st sid req g =
      (Except.error invalidOptionError,
       { st with checkoutSessions := setKey st.checkoutSessions sid (updApplied s req g) }) := by
    unfold updateOp
    rw [hl]
    dsimp only
    rw [if_neg (by rw [hready]; rintro (hh | hh) <;> cases hh)]
    rw [hfid]
    dsimp only
    rw [hnf2]
  refine ⟨hmain, ?_⟩
  intro hi ha
  have hupd : updApplied s req g = s := by
    unfold updApplied applyItems applyAddress
    rw [hi, ha]
  rw [hmain, hupd, setKey_lookup_self _ _ _ hl]

/-- C1 amended witness: the partial-write equation at the concrete failing
update of the counterexample. -/
theorem update_invalid_option_partial_write_witness :
    updateOp demoState1 demoSid bogusUpdateReq demoUpdateGen =
      (Except.error invalidOptionError,
       { demoState1 with checkoutSessions := setKey demoState1.checkoutSessions demoSid (updApplied (sessionAt demoState1 demoSid) bogusUpdateReq demoUpdateGen) }) :=
  (update_invalid_option_partial_write demoState1 demoSid bogusUpdateReq
    demoUpdateGen (sessionAt demoState1 demoSid) "bogus" rfl rfl rfl rfl).1

/-- C3: a second Complete call on a session just completed fails with the
`invalid_status` error and changes nothing; and over every reachable server
state each session id owns at most one order record. -/
theorem complete_exactly_once :
    (∀ (st : ServerState) (sid : String) (req : CompleteReq) (g : CompleteGen)
       (s1 : Session) (st1 : ServerState) (req2 : CompleteReq) (g2 : CompleteGen),
       completeOp st sid req g = (Except.ok s1, st1) →
       completeOp st1 sid req2 g2 =
         (Except.error (completeInvalidStatusError SessionStatus.completed), st1)) ∧
    (∀ st : ServerState, Reachable st → ∀ sid : String,
       countOrders st.orders sid ≤ 1) := by
  constructor
  · intro st sid req g s1 st1 req2 g2 h
    obtain ⟨s, t, hl, hready, ht, hs1, hst1⟩ := completeOp_ok st sid req g s1 st1 h
    have hl1 : lookupKey st1.checkoutSessions sid =
        some (completedSession s sid req g) := by
      rw [hst1]
      exact lookupKey_setKey_self _ _ _
    have hne : (completedSession s sid req g).status ≠
        SessionStatus.ready_for_payment := by
      rw [(completedSession_fields s sid req g).1]
      intro hh
      cases hh
    unfold completeOp
    rw [hl1]
    dsimp only
    rw [if_pos hne, (completedSession_fields s sid req g).1]
  · intro st hr sid
    have h := reachable_ordersInv hr sid
    rw [h]
    cases hlk : lookupKey st.checkoutSessions sid with
    | none => simp
    | some s =>
      dsimp only
      split <;> simp

/-- C3 witness: completing the same concrete session twice. -/
theorem complete_exactly_once_witness :
    completeOp demoAfterComplete1 demoSid demoCompleteReq demoCompleteGenB =
      (Except.error (completeInvalidStatusError SessionStatus.completed),
       demoAfterComplete1) ∧
    countOrders demoAfterComplete1.orders demoSid ≤ 1 :=
  ⟨complete_exactly_once.1 demoTwoSessions demoSid demoCompleteReq
     demoCompleteGen (sessionAt demoAfterComplete1 demoSid) demoAfterComplete1
     demoCompleteReq demoCompleteGenB rfl,
   complete_exactly_once.2 demoAfterComplete1 demoAfterComplete1_reachable demoSid⟩

/-- C6: over every reachable state each stored session's
`fulfillment_option_id` names a member of its `fulfillment_options`; no step
ever changes a stored session's `fulfillment_options`; and Create selects
the first, Standard option by default and installs exactly the generated
two-option menu. -/
theorem fulfillment_option_invariant :
    (∀ st : ServerState, Reachable st → ∀ sid s,
       lookupKey st.checkoutSessions sid = some s → OptionIdValid s) ∧
    (∀ st st' : ServerState, Step st st' → ∀ sid s s',
       lookupKey st.checkoutSessions sid = some s →
       lookupKey st'.checkoutSessions sid = some s' →
       s'.fulfillment_options = s.fulfillment_options) ∧
    (∀ (st : ServerState) (req : CreateReq) (g : CreateGen) (s' : Session)
       (st2 : ServerState), createOp st req g = (Except.ok s', st2) →
       s'.fulfillment_options =
         createFulfillmentOptions req.fulfillment_address g.now g.optId1 g.optId2 ∧
       s'.fulfillment_option_id = (standardOption g.now g.optId1).id ∧
       (standardOption g.now g.optId1).title = "Standard") := by
  refine ⟨?_, ?_, ?_⟩
  · intro st hr
    exact reachable_optionIdValid hr
  · intro st st' hstep
    exact step_preserves_options hstep
  · intro st req g s' st2 h
    obtain ⟨items, hi, hne, hs, _⟩ := createOp_ok st req g s' st2 h
    subst hs
    exact ⟨rfl, rfl, rfl⟩

/-- C6 witness: the invariant on a concrete reachable state, the
menu-preservation across a concrete step, and the creation default. -/
theorem fulfillment_option_invariant_witness :
    OptionIdValid (sessionAt demoState1 demoSid) ∧
    (sessionAt demoState2 demoSid).fulfillment_options =
      (sessionAt demoState1 demoSid).fulfillment_options ∧
    (sessionAt demoState1 demoSid).fulfillment_option_id =
      (standardOption 0 "fulfillment_option_std1").id :=
  ⟨fulfillment_option_invariant.1 demoState1 demoState1_reachable demoSid
     (sessionAt demoState1 demoSid) rfl,
   fulfillment_option_invariant.2.1 demoState1 demoState2
     (Step.update demoState1 demoSid bogusUpdateReq demoUpdateGen) demoSid
     (sessionAt demoState1 demoSid) (sessionAt demoState2 demoSid) rfl rfl,
   (fulfillment_option_invariant.2.2 initialState demoCreateReq demoCreateGen
     (sessionAt demoState1 demoSid) demoState1 rfl).2.1⟩

/-- C5 counterexample: Complete never consults the token store.  The token
`vt_ghost` was never minted by Delegate (the token store is empty), yet a
Complete supplying it succeeds — and after that "redemption" the very same
token is accepted again by a second Complete on another session. -/
theorem token_single_use_counterexample :
    lookupKey demoTwoSessions.paymentTokens "vt_ghost" = none ∧
    isSuccess (completeOp demoTwoSessions demoSid demoCompleteReq demoCompleteGen).1 = true ∧
    isSuccess (completeOp demoAfterComplete1 demoSidB demoCompleteReq demoCompleteGenB).1 = true :=
  ⟨rfl, rfl, rfl⟩

/-- C5 amended: Complete performs no token-store check at all: it succeeds
for any ready session whenever `payment_data` carries a truthy token —
minted or not, used before or not — and its outcome is entirely independent
of the token store's contents. -/
theorem complete_ignores_token_store :
    (∀ (st : ServerState) (sid : String) (req : CompleteReq) (g : CompleteGen)
       (s : Session) (t : String),
       lookupKey st.checkoutSessions sid = some s →
       s.status = SessionStatus.ready_for_payment →
       truthyToken req.payment_data = some t →
       (completeOp st sid req g).1 = Except.ok (completedSession s sid req g)) ∧
    (∀ (st : ServerState) (toks : List (String × PaymentToken)) (sid : String)
       (req : CompleteReq) (g : CompleteGen),
       (completeOp { st with paymentTokens := toks } sid req g).1 =
         (completeOp st sid req g).1) := by
  constructor
  · intro st sid req g s t hl hready ht
    rw [completeOp_succeeds st sid req g s t hl hready ht]
  · intro st toks sid req g
    unfold completeOp
    dsimp only
    cases hl : lookupKey st.checkoutSessions sid with
    | none => rfl
    | some s =>
      dsimp only
      by_cases hst : s.status ≠ SessionStatus.ready_for_payment
      · rw [if_pos hst, if_pos hst]
      · rw [if_neg hst, if_neg hst]
        cases ht : truthyToken req.payment_data with
        | none => rfl
        | some t => rfl

/-- C5 amended witness: the never-minted token `vt_ghost` completes a
concrete ready session, and swapping in an arbitrary token store does not
change the response. -/
theorem complete_ignores_token_store_witness :
    (completeOp demoState1 demoSid demoCompleteReq demoCompleteGen).1 =
      Except.ok (completedSession (sessionAt demoState1 demoSid) demoSid
        demoCompleteReq demoCompleteGen) ∧
    (completeOp { demoState1 with paymentTokens := [] } demoSid demoCompleteReq demoCompleteGen).1 =
      (completeOp demoState1 demoSid demoCompleteReq demoCompleteGen).1 :=
  ⟨complete_ignores_token_store.1 demoState1 demoSid demoCompleteReq
     demoCompleteGen (sessionAt demoState1 demoSid) "vt_ghost" rfl rfl rfl,
   complete_ignores_token_store.2 demoState1 [] demoSid demoCompleteReq
     demoCompleteGen⟩

/-- C8: Delegate rejects with the card-type error whenever no card-typed
payment method is supplied; with the allowance-reason error whenever the
payment method is a card but the allowance reason is not one_time; with the
missing-risk-signal error whenever the first two checks pass but
risk_signals is absent or empty; and on every failure the state — in
particular the token store — is unchanged. -/
theorem delegate_validation_errors :
    (∀ (st : ServerState) (req : DelegateReq) (g : DelegateGen),
       pmTypeOf req.payment_method ≠ some "card" →
       delegateOp st req g = (Except.error invalidCardError, st)) ∧
    (∀ (st : ServerState) (req : DelegateReq) (g : DelegateGen)
       (pm : PaymentMethod),
       req.payment_method = some pm → pm.type = "card" →
       allowanceReasonOf req.allowance ≠ some "one_time" →
       delegateOp st req g = (Except.error invalidAllowanceError, st)) ∧
    (∀ (st : ServerState) (req : DelegateReq) (g : DelegateGen)
       (pm : PaymentMethod) (al : Allowance),
       req.payment_method = some pm → pm.type = "card" →
       req.allowance = some al → al.reason = "one_time" →
       hasRiskSignal req.risk_signals = false →
       delegateOp st req g = (Except.error riskSignalsError, st)) ∧
    (∀ (st : ServerState) (req : DelegateReq) (g : DelegateGen) (e : ApiError)
       (st2 : ServerState),
       delegateOp st req g = (Except.error e, st2) → st2 = st) :=
  ⟨delegateOp_invalidCard, delegateOp_invalidAllowance,
   delegateOp_missingRisk, delegateOp_err_state⟩

/-- C8 witness: the three rejections and the no-write guarantee at concrete
requests. -/
theorem delegate_validation_errors_witness :
    delegateOp initialState demoDelegateReqBadCard demoDelegateGen =
      (Except.error invalidCardError, initialState) ∧
    delegateOp initialState demoDelegateReqBadAllowance demoDelegateGen =
      (Except.error invalidAllowanceError, initialState) ∧
    delegateOp initialState demoDelegateReqNoRisk demoDelegateGen =
      (Except.error riskSignalsError, initialState) ∧
    initialState = initialState :=
  ⟨delegate_validation_errors.1 initialState demoDelegateReqBadCard
     demoDelegateGen (by decide),
   delegate_validation_errors.2.1 initialState demoDelegateReqBadAllowance
     demoDelegateGen demoPaymentMethod rfl rfl (by decide),
   delegate_validation_errors.2.2.1 initialState demoDelegateReqNoRisk
     demoDelegateGen demoPaymentMethod demoAllowance rfl rfl rfl rfl rfl,
   delegate_validation_errors.2.2.2 initialState demoDelegateReqBadCard
     demoDelegateGen invalidCardError initialState rfl⟩

/-- C9: a valid Delegate call answers 201 with a body holding only the
token id, creation timestamp and metadata, stores the full token record
keyed by the fresh id without touching any other key, and the response is
independent of the payment method, allowance, billing address and risk
signals supplied (minimal disclosure). -/
theorem delegate_minimal_disclosure :
    (∀ (st : ServerState) (req : DelegateReq) (g : DelegateGen)
       (pm : PaymentMethod) (al : Allowance) (rs : List RiskSignal),
       req.payment_method = some pm → pm.type = "card" →
       req.allowance = some al → al.reason = "one_time" →
       req.risk_signals = some rs → rs ≠ [] →
       delegateOp st req g =
         (Except.ok { id := g.tokenId, created := g.now, metadata := req.metadata.getD [] },
          { st with paymentTokens := setKey st.paymentTokens g.tokenId (mkToken pm al req rs g) }) ∧
       lookupKey (delegateOp st req g).2.paymentTokens g.tokenId =
         some (mkToken pm al req rs g) ∧
       (∀ tid, tid ≠ g.tokenId →
         lookupKey (delegateOp st req g).2.paymentTokens tid =
           lookupKey st.paymentTokens tid)) ∧
    (∀ (st1 st2 : ServerState) (req1 req2 : DelegateReq) (g : DelegateGen)
       (pm1 pm2 : PaymentMethod) (al1 al2 : Allowance)
       (rs1 rs2 : List RiskSignal),
       req1.payment_method = some pm1 → pm1.type = "card" →
       req1.allowance = some al1 → al1.reason = "one_time" →
       req1.risk_signals = some rs1 → rs1 ≠ [] →
       req2.payment_method = some pm2 → pm2.type = "card" →
       req2.allowance = some al2 → al2.reason = "one_time" →
       req2.risk_signals = some rs2 → rs2 ≠ [] →
       req1.metadata = req2.metadata →
       (delegateOp st1 req1 g).1 = (delegateOp st2 req2 g).1) := by
  constructor
  · intro st req g pm al rs hpm hty hal hrsn hrs hne
    have hok := delegateOp_ok_eq st req g pm al rs hpm hty hal hrsn hrs hne
    refine ⟨?_, ?_, ?_⟩
    · rw [hok]
      rfl
    · rw [hok]
      exact lookupKey_setKey_self _ _ _
    · intro tid htid
      rw [hok]
      exact lookupKey_setKey_ne _ _ _ _ htid
  · intro st1 st2 req1 req2 g pm1 pm2 al1 al2 rs1 rs2 hpm1 hty1 hal1 hrsn1
      hrs1 hne1 hpm2 hty2 hal2 hrsn2 hrs2 hne2 hm
    rw [delegateOp_ok_eq st1 req1 g pm1 al1 rs1 hpm1 hty1 hal1 hrsn1 hrs1 hne1,
        delegateOp_ok_eq st2 req2 g pm2 al2 rs2 hpm2 hty2 hal2 hrsn2 hrs2 hne2]
    simp [mkDelegateResponse, hm]

/-- C9 witness: two concrete valid requests differing in their card number
get identical responses, and the minted token is stored under its id. -/
theorem delegate_minimal_disclosure_witness :
    (delegateOp initialState demoDelegateReq demoDelegateGen).1 =
      (delegateOp initialState demoDelegateReqAltCard demoDelegateGen).1 ∧
    lookupKey (delegateOp initialState demoDelegateReq demoDelegateGen).2.paymentTokens
      "vt_demo0001" =
      some (mkToken demoPaymentMethod demoAllowance demoDelegateReq
        [demoRiskSignal] demoDelegateGen) :=
  ⟨delegate_minimal_disclosure.2 initialState initialState demoDelegateReq
     demoDelegateReqAltCard demoDelegateGen demoPaymentMethod
     demoPaymentMethodAlt demoAllowance demoAllowance [demoRiskSignal]
     [demoRiskSignal] rfl rfl rfl rfl rfl (by simp) rfl rfl rfl rfl rfl
     (by simp) rfl,
   (delegate_minimal_disclosure.1 initialState demoDelegateReq demoDelegateGen
     demoPaymentMethod demoAllowance [demoRiskSignal] rfl rfl rfl rfl rfl
     (by simp)).2.1⟩

/-- C10: Create rejects an explicitly empty items array with the
items-required error, but Update on a ready session accepts the (truthy)
empty array: it replaces `line_items` with the empty sequence and recomputes
totals whose items, subtotal and tax entries are 0 and whose total is the
selected option's cost alone. -/
theorem update_accepts_empty_items :
    (∀ (st : ServerState) (buyer : Option Buyer) (addr : Option Address)
       (g : CreateGen),
       createOp st { items := some [], buyer := buyer, fulfillment_address := addr } g =
         (Except.error itemsRequiredError, st)) ∧
    (∀ (st : ServerState) (sid : String) (g : UpdateGen) (s : Session)
       (opt : FulfillmentOption),
       lookupKey st.checkoutSessions sid = some s →
       s.status = SessionStatus.ready_for_payment →
       findOption s.fulfillment_options s.fulfillment_option_id = some opt →
       updateOp st sid emptyItemsUpdate g =
         (Except.ok (emptiedSession s opt g.now),
          { st with checkoutSessions := setKey st.checkoutSessions sid (emptiedSession s opt g.now) })) := by
  constructor
  · intro st buyer addr g
    rfl
  · intro st sid g s opt hl hready hf
    have hupd : updApplied s emptyItemsUpdate g = { s with line_items := [] } := rfl
    have hrec : recompute (updApplied s emptyItemsUpdate g) g.now =
        emptiedSession s opt g.now := by
      rw [hupd]
      unfold recompute emptiedSession
      have hfo : findOption ({ s with line_items := ([] : List LineItem) }).fulfillment_options
          ({ s with line_items := ([] : List LineItem) }).fulfillment_option_id = some opt := hf
      rw [hfo]
      simp [calculateTotals]
    unfold updateOp
    rw [hl]
    dsimp only
    rw [if_neg (by rw [hready]; rintro (hh | hh) <;> cases hh)]
    show (Except.ok (recompute (updApplied s emptyItemsUpdate g) g.now), _) = _
    rw [hrec]

/-- C10 witness: the concrete empty-items create rejection and update
acceptance. -/
theorem update_accepts_empty_items_witness :
    createOp initialState { items := some [], buyer := none, fulfillment_address := none } demoCreateGen =
      (Except.error itemsRequiredError, initialState) ∧
    updateOp demoState1 demoSid emptyItemsUpdate demoUpdateGen =
      (Except.ok (emptiedSession (sessionAt demoState1 demoSid)
          (standardOption 0 "fulfillment_option_std1") 5),
       { demoState1 with checkoutSessions := setKey demoState1.checkoutSessions demoSid (emptiedSession (sessionAt demoState1 demoSid) (standardOption 0 "fulfillment_option_std1") 5) }) :=
  ⟨update_accepts_empty_items.1 initialState none none demoCreateGen,
   update_accepts_empty_items.2 demoState1 demoSid demoUpdateGen
     (sessionAt demoState1 demoSid) (standardOption 0 "fulfillment_option_std1")
     rfl rfl rfl⟩

end ACP
